import Mathlib

/-!
Verification of the F1 pit-stop strategy engine
(`src/models/track_strategy.py`, class `TrackStrategyOptimizer`).

The engine is shallowly embedded: laps and stop counts are `Int`
(Python ints), probabilities / degradation factors / tire lives are `ℚ`
(Python floats carry no rounding-relevant computation on the verified
paths), Python lists are `List`, the class-level `TIRE_COMPOUNDS`
dictionary is an association list threaded through `generate_strategy`
as explicit state (its inner dicts are shared by the shallow
`TIRE_COMPOUNDS.copy()`, so the `remaining_life` write at line 896 of
the source lands in the class-level table), and a Python `KeyError`
becomes an `Except.error`.  Python's floor division `//` is `Int.fdiv`.
-/

namespace F1

/-- One entry of the class-level `TIRE_COMPOUNDS` dictionary
(`track_strategy.py` lines 477-518).  `remainingLife` models the
optional `remaining_life` key, absent (`none`) in the initial table and
inserted by `generate_strategy`.  The static keys `optimal_window`,
`high_deg_tracks` and `preferred_phase` are never read nor written by
any embedded code path and are omitted. -/
structure CompoundData where
  minLife : ℚ
  maxLife : ℚ
  paceAdvantage : ℚ
  remainingLife : Option ℚ := none
deriving DecidableEq, Repr

/-- The `TIRE_COMPOUNDS` dictionary: compound identifier to data. -/
abbrev TireTable := List (String × CompoundData)

/-- Dictionary lookup, `d[c]`; `none` models a Python `KeyError`. -/
def lookupCompound : TireTable → String → Option CompoundData
  | [], _ => none
  | (k, d) :: t, c => if k = c then some d else lookupCompound t c

/-- Set the `remaining_life` field of the entry at key `c` (to `none` to
model the key being absent).  Keys of the table are unique, so mapping
every matching entry models the Python dict write exactly. -/
def setRemainingLifeOpt : TireTable → String → Option ℚ → TireTable
  | [], _, _ => []
  | (k, d) :: t, c, v =>
      if k = c then (k, { d with remainingLife := v }) :: setRemainingLifeOpt t c v
      else (k, d) :: setRemainingLifeOpt t c v

/-- The write `compounds_data[current_compound]['remaining_life'] = remaining_life`
(source line 896): through the shallow copy it mutates the class-level table. -/
def setRemainingLife (t : TireTable) (c : String) (v : ℚ) : TireTable :=
  setRemainingLifeOpt t c (some v)

/-- The initial class-level `TIRE_COMPOUNDS` table (source lines 477-518). -/
def TIRE_COMPOUNDS : TireTable :=
  [ ("soft",   { minLife := 10, maxLife := 20, paceAdvantage := -1/2 }),
    ("medium", { minLife := 20, maxLife := 35, paceAdvantage := 0 }),
    ("hard",   { minLife := 30, maxLife := 45, paceAdvantage := 0 }),
    ("inter",  { minLife := 15, maxLife := 30, paceAdvantage := 0 }),
    ("wet",    { minLife := 20, maxLife := 40, paceAdvantage := 0 }) ]

/-- The `TrackCharacteristics` dataclass (source lines 19-47), with the
dataclass defaults. -/
structure TrackCharacteristics where
  tireDegradation : ℚ := 1
  trackEvolution : ℚ := 5/1000
  safetyCarProbability : ℚ := 3/10
  trafficImpact : ℚ := 1/2
  pitWindowMargin : Int := 3
  overtakingDifficulty : ℚ := 1/2
  trackLength : ℚ := 5
  trackType : String := "standard"
  pitLossTime : ℚ := 20
  raceLaps : Int := 0
  maxStops : Int := 3
deriving DecidableEq, Repr

/-- The `monaco_gp` entry of `TRACK_CONFIGS` (source lines 209-222) as
loaded by `load_track_config` (`overtaking_difficulty` is 0.8 because
`difficult_overtaking` is true, source line 594). -/
def monaco_gp : TrackCharacteristics :=
  { tireDegradation := 8/10
    trackEvolution := 3/1000
    safetyCarProbability := 6/10
    trafficImpact := 8/10
    pitWindowMargin := 2
    overtakingDifficulty := 8/10
    trackLength := 3337/1000
    trackType := "street"
    pitLossTime := 47/2
    raceLaps := 78
    maxStops := 1 }

/-- A neutral test circuit used by concrete witnesses: every heuristic
threshold is strictly between its breakpoints, so no adjustment fires. -/
def tc0 : TrackCharacteristics :=
  { tireDegradation := 1
    trackEvolution := 1/100
    safetyCarProbability := 3/10
    trafficImpact := 1/2
    pitWindowMargin := 4
    overtakingDifficulty := 6/10
    trackLength := 5
    trackType := "standard"
    pitLossTime := 21
    raceLaps := 40
    maxStops := 3 }

/-- The neutral circuit with a 55-lap race. -/
def tc1 : TrackCharacteristics := { tc0 with raceLaps := 55 }

/-- One generated pit window: the dict built at source lines 1085-1096. -/
structure PitWindow where
  stopNumber : Int
  startLap : Int
  optimalLap : Int
  endLap : Int
  compound : String
deriving DecidableEq, Repr

/-- The dynamically-typed `strategy_notes` value: the early-return path
(source line 903) stores a Python list of strings, the normal path
(source line 1176) stores a single joined string. -/
inductive Notes where
  | list (xs : List String)
  | str (s : String)
deriving DecidableEq, Repr

/-- The strategy dict returned by `generate_strategy` (source lines 943-947). -/
structure Strategy where
  recommendedStops : Int
  pitWindows : List PitWindow
  strategyNotes : Notes
deriving DecidableEq, Repr

deriving instance DecidableEq for Except

/-- `TrackStrategyOptimizer._calculate_optimal_stops` (source lines 949-1000).
Python truthiness of `if current_compound and tire_age:` is `current_compound`
not `None` and not the empty string, and `tire_age ≠ 0`; the dictionary
lookup inside that branch can raise `KeyError`, modelled by `none`.
Note the `remaining_life` used here (line 982) is NOT clamped at zero. -/
def calculate_optimal_stops (table : TireTable) (remainingLaps : Int)
    (currentCompound : Option String) (tireAge : Int)
    (trackEvolution safetyCarProb : ℚ) : Option Int :=
  let baseStops : Int := Int.fdiv remainingLaps 20
  let step2 : Option Int :=
    match currentCompound with
    | some c =>
      if c ≠ "" ∧ tireAge ≠ 0 then
        match lookupCompound table c with
        | some d =>
            some (if d.maxLife - (tireAge : ℚ) < (remainingLaps : ℚ) * (7/10)
                  then baseStops + 1 else baseStops)
        | none => none
      else some baseStops
    | none => some baseStops
  match step2 with
  | none => none
  | some b =>
    let b1 := if trackEvolution > 12/1000 then b + 1
              else if trackEvolution < 8/1000 then max 0 (b - 1) else b
    let b2 := if safetyCarProb > 4/10 then b1 + 1
              else if safetyCarProb < 2/10 then max 0 (b1 - 1) else b1
    some b2

/-- `TrackStrategyOptimizer._adjust_strategy_for_position` (source lines
1002-1044).  No clamp to `max_stops - stops_made` is applied anywhere. -/
def adjust_strategy_for_position (baseStops currentPosition : Int)
    (trafficImpact overtakingDifficulty : ℚ) : Int :=
  let b1 := if trafficImpact > 6/10 then baseStops + 1
            else if trafficImpact < 4/10 then max 0 (baseStops - 1) else baseStops
  let b2 := if overtakingDifficulty > 7/10 then b1 + 1
            else if overtakingDifficulty < 5/10 then max 0 (b1 - 1) else b1
  if currentPosition > 10 then b2 + 1
  else if currentPosition < 5 then max 0 (b2 - 1) else b2

/-- `TrackStrategyOptimizer._recommend_compound` (source lines 1102-1132).
`remainingLaps` is the caller's total remaining race laps (source line 1095),
not the laps remaining after the stop. -/
def recommend_compound (stop totalStops remainingLaps : Int)
    (trackType : String) : String :=
  if stop = totalStops - 1 then
    if remainingLaps ≤ 15 ∨ trackType = "street" then "soft" else "medium"
  else "hard"

/-- `TrackStrategyOptimizer._generate_pit_windows` (source lines 1046-1100).
The Python parameters `current_compound` and `tire_age` are never used in
the body and are dropped.  Note the window laps are built from
`stint_length * stop` offsets with no `current_lap` added. -/
def generate_pit_windows (raceLaps : Int) (trackType : String)
    (remainingLaps numStops : Int) : List PitWindow :=
  let stintLength := Int.fdiv remainingLaps (numStops + 1)
  (List.range numStops.toNat).map (fun (s : Nat) =>
    let stop : Int := Int.ofNat s
    let optimalLap := min (raceLaps - 2) (stintLength * (stop + 1))
    let margin : Int := if trackType = "street" then 3 else 5
    { stopNumber := stop + 1
      startLap := max (stintLength * stop) (optimalLap - margin)
      optimalLap := optimalLap
      endLap := min (raceLaps - 2) (optimalLap + margin)
      compound := recommend_compound stop numStops remainingLaps trackType })

/-- `TrackStrategyOptimizer._generate_strategy_notes` (source lines
1134-1176); its `pit_windows`, `current_position` and `track_evolution`
parameters are unused in the body and are dropped. -/
def generate_strategy_notes (trackType : String) (safetyCarProb : ℚ) : String :=
  let notes : List String :=
    (if trackType = "street" then ["Track position is crucial"]
     else if trackType = "high_speed" then
       ["Look for undercut opportunities", "Be aggressive in overtaking zones"]
     else [])
    ++ (if trackType = "high_speed" ∨ trackType = "technical" then
          ["Manage tires in high-load corners"] else [])
    ++ (if safetyCarProb ≥ 4/10 then ["Keep gaps under 20s for safety car"] else [])
  if notes.isEmpty then ""
  else String.intercalate "\n" (notes.map (fun n => "- " ++ n))

/-- `TrackStrategyOptimizer.generate_strategy` (source lines 851-947).
The first component is the returned strategy dict (or the key of a
`KeyError`); the second is the class-level `TIRE_COMPOUNDS` table after
the call (the `remaining_life` write at line 896 goes through the
shallow `copy()` into the shared table, before the `remaining_laps <= 0`
early return is checked).  `stops_made` and `max_remaining_stops` are
computed (source lines 885-886) but `max_remaining_stops` is never used. -/
def generate_strategy (table : TireTable) (tc : TrackCharacteristics)
    (currentLap currentPosition : Int) (currentCompound : Option String)
    (tireAge : Int) (previousStops : List Int) :
    Except String Strategy × TireTable :=
  let remainingLaps := tc.raceLaps - currentLap
  let stopsMade : Int := previousStops.length
  let _maxRemainingStops := tc.maxStops - stopsMade
  let updated : Except String TireTable :=
    match currentCompound with
    | some c =>
      if c ≠ "" then
        match lookupCompound table c with
        | some d =>
            let remainingLife := d.maxLife - (tireAge : ℚ)
            let remainingLife := if remainingLife < 0 then 0 else remainingLife
            Except.ok (setRemainingLife table c remainingLife)
        | none => Except.error c
      else Except.ok table
    | none => Except.ok table
  match updated with
  | Except.error e => (Except.error e, table)
  | Except.ok table1 =>
      if remainingLaps ≤ 0 then
        (Except.ok { recommendedStops := 0, pitWindows := [],
                     strategyNotes := Notes.list ["Race is finished"] }, table1)
      else
        match calculate_optimal_stops table1 remainingLaps currentCompound tireAge
                tc.trackEvolution tc.safetyCarProbability with
        | none => (Except.error "KeyError", table1)
        | some baseStops =>
            let adjustedStops := adjust_strategy_for_position baseStops
              currentPosition tc.trafficImpact tc.overtakingDifficulty
            let pitWindows := generate_pit_windows tc.raceLaps tc.trackType
              remainingLaps adjustedStops
            let strategyNotes := generate_strategy_notes tc.trackType
              tc.safetyCarProbability
            (Except.ok { recommendedStops := adjustedStops,
                         pitWindows := pitWindows,
                         strategyNotes := Notes.str strategyNotes }, table1)

/-- The live weather record consumed by `update_characteristics`:
`rainfall` defaults to false (`weather_data.get('rainfall', False)`),
`trackTemp` to 25 when absent, `weatherStability` is applied only when
the key is present. -/
structure WeatherData where
  rainfall : Bool := false
  trackTemp : Option ℚ := none
  weatherStability : Option ℚ := none
deriving DecidableEq, Repr

/-- The weather half of `TrackStrategyOptimizer.update_characteristics`
(source lines 641-665).  `none` models a missing or empty (hence falsy)
`weather_data` dict, in which case the whole block — including the
track-type multipliers — is skipped. -/
def update_characteristics_weather (tc : TrackCharacteristics)
    (weatherData : Option WeatherData) : TrackCharacteristics :=
  match weatherData with
  | none => tc
  | some w =>
      let p1 := if w.rainfall then tc.safetyCarProbability * (3/2)
                else tc.safetyCarProbability
      let p2 := if w.trackTemp.getD 25 > 40 then p1 * (6/5) else p1
      let p3 := if tc.trackType = "street" then p2 * (13/10)
                else if tc.trackType = "high_speed" then p2 * (11/10) else p2
      let tc1 := { tc with safetyCarProbability := min p3 1 }
      let tc2 :=
        match w.weatherStability with
        | some s => { tc1 with trackEvolution := tc1.trackEvolution * s }
        | none => tc1
      if w.rainfall then { tc2 with trafficImpact := tc2.trafficImpact * (6/5) }
      else tc2

/-- Compound validity as `generate_strategy` actually sees it: absent or
empty compounds skip the table lookup entirely, any other identifier
must be a key of the table. -/
def compOkB (table : TireTable) : Option String → Bool
  | none => true
  | some c => (c == "") || (lookupCompound table c).isSome

/-- Modelled from the spec, section 4.2 only (the claimed estimator is
not the one in the source): the stop-count rule including step 3, the
tire-degradation increment/decrement that the source code does not
implement.  `maxLife` is the current compound's catalog life, `none`
when no compound is given. -/
def estimateStops_specRule (remainingLaps : Int) (maxLife : Option ℚ)
    (tireAge : Int) (tireDegradation trackEvolution safetyCarProb : ℚ) : Int :=
  let base0 := Int.fdiv remainingLaps 20
  let base1 :=
    match maxLife with
    | some ml =>
        if tireAge > 0 ∧ max 0 (ml - (tireAge : ℚ)) < (remainingLaps : ℚ) * (7/10)
        then base0 + 1 else base0
    | none => base0
  let base2 := if tireDegradation > 12/10 then base1 + 1
               else if tireDegradation < 8/10 then max 0 (base1 - 1) else base1
  let base3 := if trackEvolution > 12/1000 then base2 + 1
               else if trackEvolution < 8/1000 then max 0 (base2 - 1) else base2
  if safetyCarProb > 4/10 then base3 + 1
  else if safetyCarProb < 2/10 then max 0 (base3 - 1) else base3

/-! ### Helper lemmas on the tire table -/

theorem lookup_setRemainingLifeOpt_self (t : TireTable) (c : String) (v : Option ℚ) :
    lookupCompound (setRemainingLifeOpt t c v) c
      = (lookupCompound t c).map (fun d => { d with remainingLife := v }) := by
  induction t with
  | nil => rfl
  | cons kd t ih =>
    obtain ⟨k, d⟩ := kd
    by_cases h : k = c <;> simp [setRemainingLifeOpt, lookupCompound, h, ih]

theorem lookup_setRemainingLifeOpt_ne (t : TireTable) (c c' : String) (v : Option ℚ)
    (h : c' ≠ c) :
    lookupCompound (setRemainingLifeOpt t c v) c' = lookupCompound t c' := by
  induction t with
  | nil => rfl
  | cons kd t ih =>
    obtain ⟨k, d⟩ := kd
    by_cases hk : k = c
    · subst hk
      have hkc : k ≠ c' := fun hh => h (hh.symm)
      simp [setRemainingLifeOpt, lookupCompound, hkc, ih]
    · by_cases hk' : k = c' <;> simp [setRemainingLifeOpt, lookupCompound, hk, hk', h, ih]

theorem setRemainingLifeOpt_idem (t : TireTable) (c : String) (v1 v2 : Option ℚ) :
    setRemainingLifeOpt (setRemainingLifeOpt t c v1) c v2 = setRemainingLifeOpt t c v2 := by
  induction t with
  | nil => rfl
  | cons kd t ih =>
    obtain ⟨k, d⟩ := kd
    by_cases h : k = c <;> simp [setRemainingLifeOpt, h, ih]

/-! ### Sign lemmas for the stop-count pipeline -/

theorem calculate_optimal_stops_nonneg {table : TireTable} {r : Int}
    {comp : Option String} {age : Int} {e s : ℚ} {b : Int}
    (hr : 0 ≤ r)
    (h : calculate_optimal_stops table r comp age e s = some b) : 0 ≤ b := by
  have hbase : 0 ≤ Int.fdiv r 20 := Int.fdiv_nonneg hr (by norm_num)
  simp only [calculate_optimal_stops] at h
  split at h
  · exact absurd h (by simp)
  · rename_i b' heq
    have hb' : 0 ≤ b' := by
      split at heq
      · split at heq
        · split at heq
          · simp only [Option.some.injEq] at heq
            split at heq <;> omega
          · exact absurd heq (by simp)
        · simp only [Option.some.injEq] at heq
          omega
      · simp only [Option.some.injEq] at heq
        omega
    simp only [Option.some.injEq] at h
    subst h
    repeat' split
    all_goals omega

theorem adjust_strategy_for_position_nonneg {b p : Int} {ti od : ℚ} (hb : 0 ≤ b) :
    0 ≤ adjust_strategy_for_position b p ti od := by
  simp only [adjust_strategy_for_position]
  repeat' split
  all_goals omega

/-- Every window emitted by `_generate_pit_windows` is internally ordered
and ends no later than `race_laps - 2`, provided the remaining-lap count
is positive and no larger than the race length of at least two laps. -/
theorem generate_pit_windows_ordered {L : Int} {tt : String} {r num : Int}
    (hr : 0 < r) (hrL : r ≤ L) (hL : 2 ≤ L) :
    ∀ w ∈ generate_pit_windows L tt r num,
      w.startLap ≤ w.optimalLap ∧ w.optimalLap ≤ w.endLap ∧ w.endLap ≤ L - 2 := by
  intro w hw
  simp only [generate_pit_windows] at hw
  obtain ⟨s, hs, rfl⟩ := List.mem_map.mp hw
  rw [List.mem_range] at hs
  dsimp only [Int.ofNat_eq_coe]
  have hsi : (s : Int) ≤ num - 1 := by omega
  have hpos : (0 : Int) < num + 1 := by omega
  have h0 : 0 ≤ Int.fdiv r (num + 1) := Int.fdiv_nonneg hr.le (by omega)
  have h1 : Int.fdiv r (num + 1) * (num + 1) ≤ r := by
    rw [Int.fdiv_eq_ediv _ (by omega : (0 : Int) ≤ num + 1)]
    exact Int.ediv_mul_le r (by omega)
  have hmarg : (0 : Int) ≤ if tt = "street" then 3 else 5 := by split <;> norm_num
  have hss : Int.fdiv r (num + 1) * (s : Int) ≤ L - 2 := by
    rcases eq_or_lt_of_le h0 with h | h
    · rw [← h, zero_mul]
      omega
    · have h2 : Int.fdiv r (num + 1) * (s : Int)
          ≤ Int.fdiv r (num + 1) * (num - 1) :=
        mul_le_mul_of_nonneg_left hsi h0
      have h3 : Int.fdiv r (num + 1) * (num - 1)
          = Int.fdiv r (num + 1) * (num + 1) - 2 * Int.fdiv r (num + 1) := by ring
      linarith
  have hmono : Int.fdiv r (num + 1) * (s : Int)
      ≤ Int.fdiv r (num + 1) * ((s : Int) + 1) :=
    mul_le_mul_of_nonneg_left (by omega) h0
  refine ⟨?_, ?_, ?_⟩
  · exact max_le (le_min hss hmono) (sub_le_self _ hmarg)
  · exact le_min (min_le_left _ _) (le_add_of_nonneg_right hmarg)
  · exact min_le_left _ _

/-! ### Claim C1 -/

/-- C1: the claim "0 ≤ recommendedStops ≤ maxStops − stopsAlreadyMade" fails
in the code: on Monaco (maxStops = 1, street, high traffic and overtaking
difficulty) at lap 1, position 15, with no prior stops, `generate_strategy`
recommends 6 stops.  The clamp the spec requires corresponds to the dead
variable `max_remaining_stops` (source line 886), computed but never used. -/
theorem C1_missing_clamp_eval :
    (generate_strategy TIRE_COMPOUNDS monaco_gp 1 15 none 0 []).1.map
        (fun s => s.recommendedStops) = Except.ok 6
    ∧ monaco_gp.maxStops - (([] : List Int).length : Int) = 1
    ∧ ¬ ((6 : Int) ≤ 1) := by
  refine ⟨?_, by decide, by decide⟩
  norm_num [generate_strategy, calculate_optimal_stops, adjust_strategy_for_position,
    generate_pit_windows, generate_strategy_notes, recommend_compound,
    lookupCompound, setRemainingLife, setRemainingLifeOpt, TIRE_COMPOUNDS,
    monaco_gp, Int.fdiv, Except.map]

/-! ### Claim C2 -/

/-- C2, counterexample: with neutral track evolution (0.01) and safety-car
probability (0.3), no compound and 40 remaining laps, the code's estimator
returns 2 regardless of tire degradation, while the claimed rule (step 3 of
spec section 4.2, `estimateStops_specRule`) yields 3 at degradation 1.3:
the code has no tire-degradation adjustment at all. -/
theorem C2_counterexample :
    calculate_optimal_stops TIRE_COMPOUNDS 40 none 0 (1/100) (3/10) = some 2
    ∧ estimateStops_specRule 40 none 0 (13/10) (1/100) (3/10) = 3
    ∧ (2 : Int) ≠ 3 := by
  refine ⟨?_, ?_, by decide⟩
  · norm_num [calculate_optimal_stops, Int.fdiv]
  · norm_num [estimateStops_specRule, Int.fdiv]

/-- C2, amended: the stop-count estimator applies no tire-degradation
adjustment; the whole recommendation is invariant under changes to the
characteristics' `tire_degradation` field. -/
theorem C2_no_degradation_step (table : TireTable) (tc : TrackCharacteristics)
    (d : ℚ) (lap pos : Int) (comp : Option String) (age : Int)
    (prev : List Int) :
    generate_strategy table { tc with tireDegradation := d } lap pos comp age prev
      = generate_strategy table tc lap pos comp age prev := by
  cases tc
  rfl

/-! ### Claim C3 -/

/-- C3: the claimed target lap `currentLap + stintLength × i` and the
invariant `startLap ≥ currentLap` fail in the code: `_generate_pit_windows`
never adds `current_lap`, so on Monaco at lap 40 (stint length 9) the
windows start at laps 6, 15 and 24 with optimal laps 9, 18 and 27 — all
before the current lap 40, where the claim requires optimal lap
40 + 9 × 1 = 49 for the first stop. -/
theorem C3_windows_before_current_lap_eval :
    (generate_strategy TIRE_COMPOUNDS monaco_gp 40 5 none 0 []).1.map
        (fun s => s.pitWindows.map (fun w => (w.startLap, w.optimalLap)))
      = Except.ok [(6, 9), (15, 18), (24, 27)]
    ∧ Int.fdiv (monaco_gp.raceLaps - 40) (3 + 1) = 9
    ∧ ¬ ((9 : Int) = 40 + 9 * 1)
    ∧ (6 : Int) < 40 := by
  refine ⟨?_, by decide, by decide, by decide⟩
  norm_num [generate_strategy, calculate_optimal_stops, adjust_strategy_for_position,
    generate_pit_windows, generate_strategy_notes, recommend_compound,
    lookupCompound, setRemainingLife, setRemainingLifeOpt, TIRE_COMPOUNDS,
    monaco_gp, Int.fdiv, Except.map, List.range_succ]
  decide

/-! ### Claim C7 -/

/-- C7, counterexample: `generate_strategy` performs none of the claimed
snapshot validation.  The spec's own Scenario C (previous stop at lap 10
with current lap 5) is accepted and returns a normal recommendation, and so
is a snapshot with negative current lap, position 25 and negative tire
age. -/
theorem C7_counterexample :
    (generate_strategy TIRE_COMPOUNDS monaco_gp 5 5 none 0 [10]).1.isOk = true
    ∧ (generate_strategy TIRE_COMPOUNDS monaco_gp (-3) 25 none (-4) []).1.isOk
      = true := by
  constructor
  · norm_num [generate_strategy, calculate_optimal_stops, adjust_strategy_for_position,
      generate_pit_windows, generate_strategy_notes, recommend_compound,
      lookupCompound, setRemainingLife, setRemainingLifeOpt, TIRE_COMPOUNDS,
      monaco_gp, Int.fdiv, Except.isOk]
    rfl
  · norm_num [generate_strategy, calculate_optimal_stops, adjust_strategy_for_position,
      generate_pit_windows, generate_strategy_notes, recommend_compound,
      lookupCompound, setRemainingLife, setRemainingLifeOpt, TIRE_COMPOUNDS,
      monaco_gp, Int.fdiv, Except.isOk]
    rfl

/-! ### Claim C6 -/

/-- C6, counterexample: with the race finished (lap 45 of 40) the engine
returns the rationale `["Race is finished"]` — capital R, not the claimed
`["race is finished"]` — and when the finished-race snapshot carries an
unrecognized compound identifier the compound lookup raises before
the early return, so the call does not return a recommendation at all. -/
theorem C6_counterexample :
    (generate_strategy TIRE_COMPOUNDS tc0 45 5 none 0 []).1
      = Except.ok { recommendedStops := 0, pitWindows := [],
                    strategyNotes := Notes.list ["Race is finished"] }
    ∧ Notes.list ["Race is finished"] ≠ Notes.list ["race is finished"]
    ∧ (generate_strategy TIRE_COMPOUNDS tc0 45 5 (some "intermediate") 0 []).1
      = Except.error "intermediate" := by
  refine ⟨by decide, by decide, ?_⟩
  norm_num [generate_strategy, lookupCompound, TIRE_COMPOUNDS, tc0]
  decide

/-! ### Claim C8 -/

/-- C8, counterexample: a purely weather-driven multiplier chain is NOT
capped at 0.8 — base 0.6 with rainfall on a standard circuit yields 0.9 —
and with no weather data the street-circuit ×1.3 factor is NOT applied:
the probability stays 0.3 instead of the claimed 0.39. -/
theorem C8_counterexample :
    (update_characteristics_weather { tc0 with safetyCarProbability := 6/10 }
        (some { rainfall := true, trackTemp := some 25 })).safetyCarProbability
      = 9/10
    ∧ ¬ ((9/10 : ℚ) ≤ 8/10)
    ∧ (update_characteristics_weather { tc0 with trackType := "street" }
        none).safetyCarProbability = 3/10
    ∧ (3/10 : ℚ) ≠ min ((3/10) * (13/10)) 1 := by
  refine ⟨?_, by norm_num, by norm_num [update_characteristics_weather, tc0], ?_⟩
  · norm_num [update_characteristics_weather, tc0, min_def,
      (show ("standard" : String) ≠ "street" from by decide),
      (show ("standard" : String) ≠ "high_speed" from by decide)]
  · rw [min_def]
    norm_num

/-! ### Claim C9 -/

/-- C9, counterexample: a single-stop strategy on a standard 55-lap circuit
at lap 25 leaves 30 − 15 = 15 laps after the final stop, so the claimed
rule (`remainingLapsAfterStop ≤ 15`) demands soft, but the code passes the
total remaining laps (30 > 15) to `_recommend_compound` and fits medium. -/
theorem C9_counterexample :
    (generate_strategy TIRE_COMPOUNDS tc1 25 7 none 0 []).1
      = Except.ok { recommendedStops := 1,
                    pitWindows := [{ stopNumber := 1, startLap := 10,
                                     optimalLap := 15, endLap := 20,
                                     compound := "medium" }],
                    strategyNotes := Notes.str "" }
    ∧ (tc1.raceLaps - 25) - Int.fdiv (tc1.raceLaps - 25) (1 + 1) * 1 ≤ 15
    ∧ "medium" ≠ "soft" := by
  refine ⟨?_, by decide, by decide⟩
  norm_num [generate_strategy, calculate_optimal_stops, adjust_strategy_for_position,
    generate_pit_windows, generate_strategy_notes, recommend_compound,
    lookupCompound, setRemainingLife, setRemainingLifeOpt, TIRE_COMPOUNDS,
    tc1, tc0, Int.fdiv, List.range_succ]
  decide

/-! ### Claim C4 -/

/-- C4: every pit window produced by a `generate_strategy` call with
`currentLap ≥ 0` (so `remainingLaps ≤ raceLaps`) and `raceLaps ≥ 2` is
ordered: `startLap ≤ optimalLap ≤ endLap ≤ raceLaps − 2`. -/
theorem C4_window_order (table : TireTable) (tc : TrackCharacteristics)
    (lap pos : Int) (comp : Option String) (age : Int) (prev : List Int)
    (hlap : 0 ≤ lap) (hL : 2 ≤ tc.raceLaps) (strat : Strategy)
    (h : (generate_strategy table tc lap pos comp age prev).1 = Except.ok strat) :
    ∀ w ∈ strat.pitWindows,
      w.startLap ≤ w.optimalLap ∧ w.optimalLap ≤ w.endLap
        ∧ w.endLap ≤ tc.raceLaps - 2 := by
  simp only [generate_strategy] at h
  split at h
  · simp at h
  · split at h
    · replace h := Except.ok.inj h
      subst h
      intro w hw
      simp at hw
    · split at h
      · simp at h
      · replace h := Except.ok.inj h
        subst h
        intro w hw
        dsimp at hw
        exact generate_pit_windows_ordered (by omega) (by omega) hL w hw

/-- C4, witness: the first window of the neutral 40-lap circuit run from
lap 0 is ordered and ends by lap 38. -/
theorem C4_window_order_witness :
    (8 : Int) ≤ 13 ∧ (13 : Int) ≤ 18 ∧ (18 : Int) ≤ tc0.raceLaps - 2 := by
  have h : (generate_strategy TIRE_COMPOUNDS tc0 0 7 none 0 []).1
      = Except.ok { recommendedStops := 2,
                    pitWindows := [{ stopNumber := 1, startLap := 8,
                                     optimalLap := 13, endLap := 18,
                                     compound := "hard" },
                                   { stopNumber := 2, startLap := 21,
                                     optimalLap := 26, endLap := 31,
                                     compound := "medium" }],
                    strategyNotes := Notes.str "" } := by
    norm_num [generate_strategy, calculate_optimal_stops, adjust_strategy_for_position,
      generate_pit_windows, generate_strategy_notes, recommend_compound,
      lookupCompound, setRemainingLife, setRemainingLifeOpt, TIRE_COMPOUNDS,
      tc0, Int.fdiv, List.range_succ]
    decide
  exact C4_window_order TIRE_COMPOUNDS tc0 0 7 none 0 [] (by decide) (by decide) _ h
    { stopNumber := 1, startLap := 8, optimalLap := 13, endLap := 18,
      compound := "hard" } (by simp)

/-! ### Claim C5 -/

/-- C5: a `generate_strategy` call with positive remaining laps returns a
recommendation whose pit-window list has length exactly the recommended
stop count. -/
theorem C5_windows_length (table : TireTable) (tc : TrackCharacteristics)
    (lap pos : Int) (comp : Option String) (age : Int) (prev : List Int)
    (hrem : 0 < tc.raceLaps - lap) (strat : Strategy)
    (h : (generate_strategy table tc lap pos comp age prev).1 = Except.ok strat) :
    (strat.pitWindows.length : Int) = strat.recommendedStops := by
  simp only [generate_strategy] at h
  split at h
  · simp at h
  · split at h
    · omega
    · split at h
      · simp at h
      · rename_i b hcalc
        replace h := Except.ok.inj h
        subst h
        have hb : 0 ≤ b := calculate_optimal_stops_nonneg (by omega) hcalc
        have ha := @adjust_strategy_for_position_nonneg b pos
          tc.trafficImpact tc.overtakingDifficulty hb
        dsimp
        simp only [generate_pit_windows, List.length_map, List.length_range]
        omega

/-- C5, witness: the neutral 40-lap circuit run from lap 0 yields 2 stops
and a 2-element window list. -/
theorem C5_windows_length_witness :
    (([{ stopNumber := 1, startLap := 8, optimalLap := 13, endLap := 18,
          compound := "hard" },
        { stopNumber := 2, startLap := 21, optimalLap := 26, endLap := 31,
          compound := "medium" }] : List PitWindow).length : Int) = (2 : Int) := by
  have h : (generate_strategy TIRE_COMPOUNDS tc0 0 7 none 0 []).1
      = Except.ok { recommendedStops := 2,
                    pitWindows := [{ stopNumber := 1, startLap := 8,
                                     optimalLap := 13, endLap := 18,
                                     compound := "hard" },
                                   { stopNumber := 2, startLap := 21,
                                     optimalLap := 26, endLap := 31,
                                     compound := "medium" }],
                    strategyNotes := Notes.str "" } := by
    norm_num [generate_strategy, calculate_optimal_stops, adjust_strategy_for_position,
      generate_pit_windows, generate_strategy_notes, recommend_compound,
      lookupCompound, setRemainingLife, setRemainingLifeOpt, TIRE_COMPOUNDS,
      tc0, Int.fdiv, List.range_succ]
    decide
  exact C5_windows_length TIRE_COMPOUNDS tc0 0 7 none 0 [] (by decide) _ h

/-- C6, amended: for every snapshot with `remainingLaps ≤ 0` whose
compound is absent, empty, or a recognized identifier, `generate_strategy`
returns zero stops, no windows, and the rationale `["Race is finished"]`
(capital R, unlike the claimed lowercase string); an unrecognized compound
raises even when the race is over. -/
theorem C6_race_finished (table : TireTable) (tc : TrackCharacteristics)
    (lap pos : Int) (comp : Option String) (age : Int) (prev : List Int)
    (hrem : tc.raceLaps - lap ≤ 0) (hcomp : compOkB table comp = true) :
    (generate_strategy table tc lap pos comp age prev).1
      = Except.ok { recommendedStops := 0, pitWindows := [],
                    strategyNotes := Notes.list ["Race is finished"] } := by
  rcases comp with _ | c
  · simp [generate_strategy, hrem]
  · by_cases hc : c = ""
    · subst hc
      simp [generate_strategy, hrem]
    · rcases hlook : lookupCompound table c with _ | d
      · simp [compOkB, hc, hlook] at hcomp
      · simp [generate_strategy, hc, hlook, hrem]

/-- C6, witness: a finished race (lap 50 of 40) on soft tires returns the
zero-stop recommendation with the capitalized rationale. -/
theorem C6_race_finished_witness :
    (generate_strategy TIRE_COMPOUNDS tc0 50 3 (some "soft") 7 []).1
      = Except.ok { recommendedStops := 0, pitWindows := [],
                    strategyNotes := Notes.list ["Race is finished"] } :=
  C6_race_finished TIRE_COMPOUNDS tc0 50 3 (some "soft") 7 [] (by decide) (by decide)

/-- A recognized (or absent, or empty) compound makes the estimator total:
the inner table lookup cannot fail. -/
theorem calculate_optimal_stops_isSome (table : TireTable) (r : Int)
    (comp : Option String) (age : Int) (e s : ℚ)
    (hcomp : ∀ c, comp = some c → c ≠ "" → (lookupCompound table c).isSome = true) :
    (calculate_optimal_stops table r comp age e s).isSome = true := by
  simp only [calculate_optimal_stops]
  rcases comp with _ | c
  · simp
  · by_cases hc : c = ""
    · subst hc
      simp
    · by_cases ha : age = 0
      · simp [hc, ha]
      · rcases hl : lookupCompound table c with _ | d
        · have hx := hcomp c rfl hc
          rw [hl] at hx
          simp at hx
        · simp [hc, ha, hl]

/-- C7, amended: `generate_strategy` performs no snapshot validation:
it succeeds exactly when the compound is absent, empty, or a key of the
tire table (`compOkB`) — regardless of current lap, position, tire age or
previous-stop laps — and when it does fail the shared tire table is left
untouched. -/
theorem C7_no_validation (table : TireTable) (tc : TrackCharacteristics)
    (lap pos : Int) (comp : Option String) (age : Int) (prev : List Int) :
    ((generate_strategy table tc lap pos comp age prev).1.isOk
        = compOkB table comp)
    ∧ (compOkB table comp = false →
        (generate_strategy table tc lap pos comp age prev).2 = table) := by
  constructor
  · rcases comp with _ | c
    · simp only [generate_strategy, compOkB]
      split
      · rfl
      · rcases hmm : calculate_optimal_stops table (tc.raceLaps - lap) none age
            tc.trackEvolution tc.safetyCarProbability with _ | b
        · have hs := calculate_optimal_stops_isSome table (tc.raceLaps - lap) none
            age tc.trackEvolution tc.safetyCarProbability (by intro c hc; cases hc)
          rw [hmm] at hs
          simp at hs
        · simp [hmm]
          rfl
    · by_cases hc : c = ""
      · subst hc
        simp only [generate_strategy, compOkB, ne_eq, not_true_eq_false, if_false,
          reduceIte]
        split
        · rfl
        · rcases hmm : calculate_optimal_stops table (tc.raceLaps - lap) (some "")
              age tc.trackEvolution tc.safetyCarProbability with _ | b
          · have hs := calculate_optimal_stops_isSome table (tc.raceLaps - lap)
              (some "") age tc.trackEvolution tc.safetyCarProbability
              (by intro c hcc hne; cases hcc; exact absurd rfl hne)
            rw [hmm] at hs
            simp at hs
          · simp [hmm]
            rfl
      · rcases hl : lookupCompound table c with _ | d
        · simp [generate_strategy, compOkB, hc, hl, Except.isOk, Except.toBool,
            beq_eq_false_iff_ne]
        · have hset : lookupCompound
              (setRemainingLife table c
                (if d.maxLife - (age : ℚ) < 0 then 0 else d.maxLife - (age : ℚ))) c
              = some { d with remainingLife := some (if d.maxLife - (age : ℚ) < 0 then 0 else d.maxLife - (age : ℚ)) } := by
            rw [setRemainingLife, lookup_setRemainingLifeOpt_self, hl]
            rfl
          simp only [generate_strategy, compOkB, hc, hl, ne_eq, not_false_eq_true,
            if_true, reduceIte, Option.isSome_some, Bool.or_true]
          split
          · rfl
          · rcases hmm : calculate_optimal_stops
                (setRemainingLife table c
                  (if d.maxLife - (age : ℚ) < 0 then 0 else d.maxLife - (age : ℚ)))
                (tc.raceLaps - lap) (some c) age
                tc.trackEvolution tc.safetyCarProbability with _ | b
            · have hs := calculate_optimal_stops_isSome
                (setRemainingLife table c
                  (if d.maxLife - (age : ℚ) < 0 then 0 else d.maxLife - (age : ℚ)))
                (tc.raceLaps - lap) (some c) age tc.trackEvolution
                tc.safetyCarProbability
                (by intro c2 hc2 hne2
                    cases hc2
                    rw [hset]
                    rfl)
              rw [hmm] at hs
              simp at hs
            · simp [hmm]
              rfl
  · intro hf
    rcases comp with _ | c
    · simp [compOkB] at hf
    · by_cases hc : c = ""
      · subst hc
        simp [compOkB] at hf
      · rcases hl : lookupCompound table c with _ | d
        · simp [generate_strategy, hc, hl]
        · simp [compOkB, hl, hc] at hf

/-- C7, witness: an unrecognized compound identifier is rejected and the
shared tire table is unchanged by the failed call. -/
theorem C7_no_validation_witness :
    (generate_strategy TIRE_COMPOUNDS tc0 10 2 (some "unknown") 3 []).1.isOk = false
    ∧ (generate_strategy TIRE_COMPOUNDS tc0 10 2 (some "unknown") 3 []).2
      = TIRE_COMPOUNDS := by
  have h := C7_no_validation TIRE_COMPOUNDS tc0 10 2 (some "unknown") 3 []
  refine ⟨?_, h.2 (by decide)⟩
  rw [h.1]
  decide

/-- C9, amended: in every generated window list the compound of stop `i`
is hard except for the final stop, which gets soft exactly when the
snapshot's total remaining race laps are ≤ 15 or the circuit is a street
circuit, and medium otherwise (the code passes total remaining laps, not
laps remaining after the stop, to the selector). -/
theorem C9_compound_rule (raceLaps : Int) (trackType : String)
    (remaining num : Int) :
    (generate_pit_windows raceLaps trackType remaining num).map
        (fun w => w.compound)
      = (List.range num.toNat).map (fun (s : Nat) =>
          if Int.ofNat s = num - 1 then
            (if remaining ≤ 15 ∨ trackType = "street" then "soft" else "medium")
          else "hard") := by
  simp only [generate_pit_windows, List.map_map]
  refine List.map_congr_left (fun s hs => ?_)
  simp [recommend_compound, Int.ofNat_eq_coe]

/-- C8, amended: when a non-empty weather record is supplied, the
safety-car probability becomes the base multiplied by 1.5 under rainfall,
1.2 above 40°C track temperature, 1.3 on street circuits and 1.1 on
high-speed circuits, clamped only to at most 1.0 (no 0.8 cap exists);
with no weather data the update is the identity, so the track-type
factors are not applied at all. -/
theorem C8_weather_update (tc : TrackCharacteristics) (w : WeatherData) :
    (update_characteristics_weather tc (some w)).safetyCarProbability
      = min (tc.safetyCarProbability
          * (if w.rainfall then (3 : ℚ)/2 else 1)
          * (if w.trackTemp.getD 25 > 40 then (6 : ℚ)/5 else 1)
          * (if tc.trackType = "street" then (13 : ℚ)/10
             else if tc.trackType = "high_speed" then (11 : ℚ)/10 else 1)) 1
    ∧ update_characteristics_weather tc none = tc := by
  refine ⟨?_, rfl⟩
  simp only [update_characteristics_weather]
  rcases hst : w.weatherStability with _ | stab <;>
    by_cases hr : w.rainfall <;>
      by_cases ht : w.trackTemp.getD 25 > 40 <;>
        simp only [hst, hr, ht, if_true, if_false, reduceIte] <;>
          split_ifs <;> ring_nf

/-! ### Claim C10 -/

/-- The table returned by a successful compound-bearing call: the
`remaining_life` write lands at the compound's entry of the shared
class-level table. -/
theorem generate_strategy_snd_some (table : TireTable) (tc : TrackCharacteristics)
    (lap pos : Int) (c : String) (age : Int) (prev : List Int) (d : CompoundData)
    (hc : c ≠ "") (hd : lookupCompound table c = some d) :
    (generate_strategy table tc lap pos (some c) age prev).2
      = setRemainingLife table c
          (if d.maxLife - (age : ℚ) < 0 then 0 else d.maxLife - (age : ℚ)) := by
  simp only [generate_strategy, hd, hc, ne_eq, not_false_eq_true, if_true, reduceIte]
  split
  · rfl
  · split <;> rfl

/-- The returned recommendation does not depend on the `remaining_life`
value previously stored in the compound's table entry. -/
theorem generate_strategy_fst_rl_invariant (table : TireTable)
    (tc : TrackCharacteristics) (lap pos : Int) (c : String) (age : Int)
    (prev : List Int) (d : CompoundData) (rl0 : Option ℚ)
    (hc : c ≠ "") (hd : lookupCompound table c = some d) :
    (generate_strategy (setRemainingLifeOpt table c rl0) tc lap pos (some c)
        age prev).1
      = (generate_strategy table tc lap pos (some c) age prev).1 := by
  have hl2 : lookupCompound (setRemainingLifeOpt table c rl0) c
      = some { d with remainingLife := rl0 } := by
    rw [lookup_setRemainingLifeOpt_self, hd]
    rfl
  simp only [generate_strategy, hd, hl2, hc, ne_eq, not_false_eq_true, if_true,
    reduceIte, setRemainingLife, setRemainingLifeOpt_idem]

/-- C10: calling `generate_strategy` with a recognized non-empty compound
and positive remaining laps writes `remaining_life` through the shallow
`TIRE_COMPOUNDS.copy()` into the shared class-level table at that
compound's entry, leaves every other compound's entry unchanged, and the
returned recommendation does not depend on the previously stored
`remaining_life` value. -/
theorem C10_shared_table_write (table : TireTable) (tc : TrackCharacteristics)
    (lap pos age : Int) (prev : List Int) (c c' : String) (d : CompoundData)
    (rl0 : Option ℚ)
    (hc : c ≠ "") (hd : lookupCompound table c = some d) (hc' : c' ≠ c)
    (hrem : 0 < tc.raceLaps - lap) :
    (generate_strategy table tc lap pos (some c) age prev).2
      = setRemainingLife table c
          (if d.maxLife - (age : ℚ) < 0 then 0 else d.maxLife - (age : ℚ))
    ∧ lookupCompound (generate_strategy table tc lap pos (some c) age prev).2 c
      = some { d with remainingLife := some (if d.maxLife - (age : ℚ) < 0 then 0 else d.maxLife - (age : ℚ)) }
    ∧ lookupCompound (generate_strategy table tc lap pos (some c) age prev).2 c'
      = lookupCompound table c'
    ∧ (generate_strategy (setRemainingLifeOpt table c rl0) tc lap pos (some c)
          age prev).1
      = (generate_strategy table tc lap pos (some c) age prev).1 := by
  have hsnd := generate_strategy_snd_some table tc lap pos c age prev d hc hd
  refine ⟨hsnd, ?_, ?_,
    generate_strategy_fst_rl_invariant table tc lap pos c age prev d rl0 hc hd⟩
  · rw [hsnd, setRemainingLife, lookup_setRemainingLifeOpt_self, hd]
    rfl
  · rw [hsnd, setRemainingLife, lookup_setRemainingLifeOpt_ne _ _ _ _ hc']

/-- C10, witness: a call on soft tires (age 5) writes remaining life 15
into the soft entry of the shared table, leaves the medium entry alone,
and returns the same recommendation whether or not a stale
`remaining_life` of 99 was present. -/
theorem C10_shared_table_write_witness :
    (generate_strategy TIRE_COMPOUNDS tc0 0 7 (some "soft") 5 []).2
      = setRemainingLife TIRE_COMPOUNDS "soft"
          (if (20 : ℚ) - ((5 : Int) : ℚ) < 0 then 0 else (20 : ℚ) - ((5 : Int) : ℚ))
    ∧ lookupCompound (generate_strategy TIRE_COMPOUNDS tc0 0 7 (some "soft") 5 []).2
        "medium" = lookupCompound TIRE_COMPOUNDS "medium"
    ∧ (generate_strategy (setRemainingLifeOpt TIRE_COMPOUNDS "soft" (some 99))
          tc0 0 7 (some "soft") 5 []).1
      = (generate_strategy TIRE_COMPOUNDS tc0 0 7 (some "soft") 5 []).1 := by
  have h := C10_shared_table_write TIRE_COMPOUNDS tc0 0 7 5 [] "soft" "medium"
    { minLife := 10, maxLife := 20, paceAdvantage := -1/2, remainingLife := none }
    (some 99) (by decide) (by rfl) (by decide) (by decide)
  exact ⟨h.1, h.2.2.1, h.2.2.2⟩

end F1
